import Mathlib

/-!
Shallow embedding of the miming-spoke-solana program
(`programs/miming-spoke-solana/src`), covering the multisig proposal
machinery (`multisig.rs`), the vault teleport / transfer-proposal
machinery (`vault.rs`), and the member-registry proposal variant
(`instructions/multisig.rs`).  Account state is passed explicitly;
fallible instructions return `Except` over the program's error enums;
`u64`/`u8` quantities are modelled as `Nat` (the embedded checks keep
every subtraction in range) and `i64` ledger amounts as `Int`.
-/

namespace MimingSpoke

/-- Solana public keys, abstracted to an infinite type with decidable
equality; only equality of keys is ever used by the program. -/
abbrev Pubkey := Nat

/-! ## `multisig.rs` -/

/-- `MultisigSigners` from `multisig.rs`: one signer entry of a multisig
configuration. -/
structure MultisigSigners where
  name : String
  pubkey : Pubkey
deriving Repr, DecidableEq

/-- `Multisig` from `multisig.rs`: a proposed multisig configuration. -/
structure Multisig where
  name : String
  threshold : Nat
  signers : List MultisigSigners
deriving Repr, DecidableEq

def MAX_THRESHOLD : Nat := 10

def MAX_SIGNERS : Nat := 10

/-- `MultisigProposalStatus` from `multisig.rs`. -/
inductive MultisigProposalStatus where
  | Pending
  | Approved
deriving Repr, DecidableEq

/-- `MultisigProposalAccount` from `multisig.rs`. -/
structure MultisigProposalAccount where
  id : Nat
  data : Multisig
  required_signers : List Pubkey
  signers : List Pubkey
  status : MultisigProposalStatus
deriving Repr, DecidableEq

/-- `MultisigAccount` from `multisig.rs`: the current multisig
configuration. -/
structure MultisigAccount where
  name : String
  threshold : Nat
  signers : List MultisigSigners
deriving Repr, DecidableEq

/-- `MultisigErrorCode` from `states/errors.rs` (the variants used by
`multisig.rs`). -/
inductive MultisigErrorCode where
  | ThresholdLimitReached
  | SignerLimitReached
  | AlreadyResolved
  | UnauthorizedSigner
  | DuplicateSignature
  | InsufficientSignatures
deriving Repr, DecidableEq

/-- Result of `MultisigInstructions::initialize`: the proposal identifier
and the multisig account it writes. -/
structure MultisigInitState where
  proposal_identifier : Nat
  multisig : MultisigAccount
deriving Repr, DecidableEq

/-- `MultisigInstructions::initialize`: sets the proposal identifier to 0
and the multisig account to the "System" configuration with no signers. -/
def initializeMultisig : MultisigInitState :=
  { proposal_identifier := 0,
    multisig := { name := "System", threshold := 0, signers := [] } }

/-- Result of `MultisigInstructions::create_proposal`: the updated
proposal identifier and the freshly written proposal account. -/
structure CreateProposalResult where
  proposal_identifier : Nat
  proposal : MultisigProposalAccount
deriving Repr, DecidableEq

/-- `MultisigInstructions::create_proposal` from `multisig.rs`.  The
proposal takes `id` from the identifier before it is incremented. -/
def create_proposal (proposal_identifier : Nat) (current_multisig : MultisigAccount)
    (name : String) (threshold : Nat) (signers : List MultisigSigners) :
    Except MultisigErrorCode CreateProposalResult :=
  if ¬ threshold ≤ MAX_THRESHOLD then .error .ThresholdLimitReached
  else if ¬ signers.length ≤ MAX_SIGNERS then .error .SignerLimitReached
  else
    let required_signers := current_multisig.signers.map (·.pubkey)
    .ok { proposal_identifier := proposal_identifier + 1,
          proposal :=
            { id := proposal_identifier,
              data := { name := name, threshold := threshold, signers := signers },
              required_signers := required_signers,
              signers := [],
              status := .Pending } }

/-- `MultisigInstructions::sign_proposal` from `multisig.rs`. -/
def sign_proposal (signer_key : Pubkey) (current_proposal : MultisigProposalAccount) :
    Except MultisigErrorCode MultisigProposalAccount :=
  if ¬ current_proposal.status = .Pending then .error .AlreadyResolved
  else if current_proposal.required_signers.length > 0 ∧
      signer_key ∉ current_proposal.required_signers then .error .UnauthorizedSigner
  else if current_proposal.signers.length > 0 ∧
      signer_key ∈ current_proposal.signers then .error .DuplicateSignature
  else .ok { current_proposal with signers := current_proposal.signers ++ [signer_key] }

/-- Result of `MultisigInstructions::approve_proposal`: the updated
proposal and the rewritten multisig account. -/
structure ApproveProposalResult where
  proposal : MultisigProposalAccount
  multisig : MultisigAccount
deriving Repr, DecidableEq

/-- `MultisigInstructions::approve_proposal` from `multisig.rs`.  The
`current_multisig` account is only written (overwritten from the
proposal's data), never read. -/
def approve_proposal (signer_key : Pubkey) (current_proposal : MultisigProposalAccount)
    (_current_multisig : MultisigAccount) :
    Except MultisigErrorCode ApproveProposalResult :=
  if ¬ current_proposal.status = .Pending then .error .AlreadyResolved
  else if current_proposal.signers.length > 0 ∧
      signer_key ∉ current_proposal.signers then .error .UnauthorizedSigner
  else if ¬ ∀ req ∈ current_proposal.required_signers,
      req ∈ current_proposal.signers then .error .InsufficientSignatures
  else
    .ok { proposal := { current_proposal with status := .Approved },
          multisig :=
            { name := current_proposal.data.name,
              threshold := current_proposal.data.threshold,
              signers := current_proposal.data.signers } }

/-! ## `vault.rs` -/

/-- `VaultTransaction` from `vault.rs`. -/
inductive VaultTransaction where
  | Teleport (from_ : Pubkey) (amount : Nat)
  | Transfer (to_ : Pubkey) (amount : Nat)
deriving Repr, DecidableEq

/-- `VaultLedger` from `vault.rs`: one ledger record; `amount` is the
signed `i64` amount, `miming_fee` the fee charged alongside it. -/
structure VaultLedger where
  id : Nat
  user : Pubkey
  transaction : VaultTransaction
  amount : Int
  miming_fee : Nat
deriving Repr, DecidableEq

/-- `VaultErrorCode` from `states/errors.rs` (the variants used by
`vault.rs`). -/
inductive VaultErrorCode where
  | InsufficientSolBalance
  | AlreadyResolved
  | UnauthorizedSigner
  | DuplicateSignature
  | InsufficientSignatures
deriving Repr, DecidableEq

/-- The accounts touched by `VaultTeleportInstructions::teleport`: the
signer's and vault's lamport balances, the ledger identifier, and the
sequence of ledger records written so far (each `teleport` /
`execute_transfer_proposal` writes the record at the next identifier). -/
structure TeleportState where
  signer_balance : Nat
  vault_balance : Nat
  ledger_identifier : Nat
  ledgers : List VaultLedger
deriving Repr, DecidableEq

/-- `VaultTeleportInstructions::teleport` from `vault.rs`.  The fee
constant `MIMING_FEE` is declared in `states/constants.rs` and is passed
here as the parameter `MIMING_FEE`. -/
def teleport (MIMING_FEE : Nat) (signer_key : Pubkey) (st : TeleportState)
    (amount : Nat) : Except VaultErrorCode TeleportState :=
  if ¬ st.signer_balance ≥ amount + MIMING_FEE then .error .InsufficientSolBalance
  else
    .ok { signer_balance := st.signer_balance - (amount + MIMING_FEE),
          vault_balance := st.vault_balance + (amount + MIMING_FEE),
          ledger_identifier := st.ledger_identifier + 1,
          ledgers := st.ledgers ++
            [{ id := st.ledger_identifier + 1,
               user := signer_key,
               transaction := .Teleport signer_key amount,
               amount := (amount : Int),
               miming_fee := MIMING_FEE }] }

/-- `VaultTransferProposalStatus` from `vault.rs`. -/
inductive VaultTransferProposalStatus where
  | Pending
  | Approved
deriving Repr, DecidableEq

/-- `VaultTransferProposalAccount` from `vault.rs`. -/
structure VaultTransferProposalAccount where
  id : Nat
  transaction : VaultTransaction
  multisig_required_signers : List Pubkey
  multisig_signers : List Pubkey
  status : VaultTransferProposalStatus
deriving Repr, DecidableEq

/-- Result of `VaultTransferProposalInstructions::create_transfer_proposal`:
the updated transfer-proposal identifier and the written proposal. -/
structure CreateTransferProposalResult where
  transfer_proposal_identifier : Nat
  transfer_proposal : VaultTransferProposalAccount
deriving Repr, DecidableEq

/-- `VaultTransferProposalInstructions::create_transfer_proposal` from
`vault.rs`.  The identifier is incremented first, so the proposal takes
`id` equal to the incremented value. -/
def create_transfer_proposal (transfer_proposal_identifier : Nat)
    (current_multisig : MultisigAccount) (recipient : Pubkey) (amount : Nat) :
    CreateTransferProposalResult :=
  let new_identifier := transfer_proposal_identifier + 1
  { transfer_proposal_identifier := new_identifier,
    transfer_proposal :=
      { id := new_identifier,
        transaction := .Transfer recipient amount,
        multisig_required_signers := current_multisig.signers.map (·.pubkey),
        multisig_signers := [],
        status := .Pending } }

/-- `VaultTransferProposalInstructions::sign_transfer_proposal` from
`vault.rs`. -/
def sign_transfer_proposal (signer_key : Pubkey)
    (current_transfer_proposal : VaultTransferProposalAccount) :
    Except VaultErrorCode VaultTransferProposalAccount :=
  if ¬ current_transfer_proposal.status = .Pending then .error .AlreadyResolved
  else if current_transfer_proposal.multisig_required_signers.length > 0 ∧
      signer_key ∉ current_transfer_proposal.multisig_required_signers then
    .error .UnauthorizedSigner
  else if current_transfer_proposal.multisig_signers.length > 0 ∧
      signer_key ∈ current_transfer_proposal.multisig_signers then
    .error .DuplicateSignature
  else .ok { current_transfer_proposal with
             multisig_signers := current_transfer_proposal.multisig_signers ++ [signer_key] }

/-- The accounts touched by
`VaultTransferProposalInstructions::execute_transfer_proposal`: the
transfer proposal, the vault's and the transfer recipient's lamport
balances, the ledger identifier and the written ledger records. -/
structure VaultExecuteState where
  current_transfer_proposal : VaultTransferProposalAccount
  vault_balance : Nat
  recipient_balance : Nat
  ledger_identifier : Nat
  ledgers : List VaultLedger
deriving Repr, DecidableEq

/-- `VaultTransferProposalInstructions::execute_transfer_proposal` from
`vault.rs`.  Note two facts of the source faithfully kept here: the
proposal's `status` field is never written (the function performs the
transfer and returns `Ok` with the status still as it was), and when the
proposal's transaction is not a `Transfer` the whole body is skipped and
the call returns `Ok` unchanged. -/
def execute_transfer_proposal (signer_key : Pubkey) (vault_key : Pubkey)
    (st : VaultExecuteState) : Except VaultErrorCode VaultExecuteState :=
  if ¬ st.current_transfer_proposal.status = .Pending then .error .AlreadyResolved
  else if st.current_transfer_proposal.multisig_required_signers.length > 0 ∧
      signer_key ∉ st.current_transfer_proposal.multisig_required_signers then
    .error .UnauthorizedSigner
  else if ¬ ∀ req ∈ st.current_transfer_proposal.multisig_required_signers,
      req ∈ st.current_transfer_proposal.multisig_signers then
    .error .InsufficientSignatures
  else
    match st.current_transfer_proposal.transaction with
    | .Transfer to_ amount =>
      if ¬ st.vault_balance ≥ amount then .error .InsufficientSolBalance
      else
        .ok { st with
              vault_balance := st.vault_balance - amount,
              recipient_balance := st.recipient_balance + amount,
              ledger_identifier := st.ledger_identifier + 1,
              ledgers := st.ledgers ++
                [{ id := st.ledger_identifier + 1,
                   user := vault_key,
                   transaction := .Transfer to_ amount,
                   amount := -(amount : Int),
                   miming_fee := 0 }] }
    | .Teleport _ _ => .ok st

/-! ## `instructions/multisig.rs` (member-registry proposal variant)

This second proposal pipeline stores members, proposals and signatures in
individually addressed records indexed `0, 1, …, count-1` by per-kind
counters; `get_members` / `get_proposals` / `get_signatures` read the
records at those indices.  The embedding keeps each collection as the
list of records currently reachable through its counter, so incrementing
a counter and writing the record at the old count is `· ++ [record]`,
and decrementing a counter drops the record at the last index from view
(`List.dropLast`). -/

namespace Registry

/-- `MultisigProposalType` from `states/multisig.rs`. -/
inductive MultisigProposalType where
  | RegisterMember
  | UnregisterMember
deriving Repr, DecidableEq

/-- `MultisigStatus` from `states/multisig.rs`. -/
inductive MultisigStatus where
  | Pending
  | Approved
  | Rejected
  | Unregister
deriving Repr, DecidableEq

/-- `MultisigMember`: a member record, with the fields written by
`approve_proposal` (`proposal_uuid`, `name`, `pubkey`). -/
structure MultisigMember where
  proposal_uuid : String
  name : String
  pubkey : Pubkey
deriving Repr, DecidableEq

/-- `MultisigProposal`: a membership proposal record, with the fields
written by `create_proposal`. -/
structure MultisigProposal where
  uuid : String
  name : String
  action_type : MultisigProposalType
  target_pubkey : Pubkey
  status : MultisigStatus
deriving Repr, DecidableEq

/-- `MultisigSignature`: a signature record. -/
structure MultisigSignature where
  proposal_uuid : String
  pubkey : Pubkey
deriving Repr, DecidableEq

/-- The `MultisigErrorCode` variants raised by `instructions/multisig.rs`. -/
inductive MultisigErrorCode where
  | NotRegistered
  | ProposalNotFound
  | AlreadySigned
  | NotAMember
  | IncompleteSignatures
deriving Repr, DecidableEq

/-- The record store of the registry variant: the proposal, signature and
member records reachable through their counters (see the section
comment). -/
structure MultisigState where
  proposals : List MultisigProposal
  signatures : List MultisigSignature
  members : List MultisigMember
deriving Repr, DecidableEq

/-- `init_counters` from `instructions/multisig.rs`: all three counters
start at 0, so no record is reachable. -/
def init_counters : MultisigState :=
  { proposals := [], signatures := [], members := [] }

/-- `create_proposal` from `instructions/multisig.rs`.  The `uuid`
argument stands for the `generate_uuid_string` output (a keccak hash of
caller, clock time, action and counters, computed outside this model).
The Unregister membership check runs only when at least one member
record exists. -/
def create_proposal (_signer_key : Pubkey) (st : MultisigState) (uuid : String)
    (name : String) (action_type : MultisigProposalType) (target_pubkey : Pubkey) :
    Except MultisigErrorCode MultisigState :=
  if action_type = .UnregisterMember ∧ st.members.length > 0 ∧
      ¬ ∃ m ∈ st.members, m.pubkey = target_pubkey then
    .error .NotRegistered
  else
    .ok { st with proposals := st.proposals ++
          [{ uuid := uuid, name := name, action_type := action_type,
             target_pubkey := target_pubkey, status := .Pending }] }

/-- The tail of `approve_proposal` after the proposal lookup: member
check, collected-signature gathering, quorum check, then the membership
mutation.  `current_proposal` is `none` exactly when the proposal-record
list was empty (the lookup block is skipped in the source). -/
def approve_proposal_apply (signer_key : Pubkey) (st : MultisigState) (uuid : String)
    (current_proposal : Option MultisigProposal) :
    Except MultisigErrorCode MultisigState :=
  if st.members.length > 0 ∧ ¬ ∃ m ∈ st.members, m.pubkey = signer_key then
    .error .NotAMember
  else if st.members.length > 0 ∧
      ¬ ∀ m ∈ st.members, m.pubkey ∈ st.signatures.map (·.pubkey) then
    .error .IncompleteSignatures
  else
    match current_proposal with
    | some proposal =>
      match proposal.action_type with
      | .RegisterMember =>
        .ok { st with members := st.members ++
              [{ proposal_uuid := uuid, name := proposal.name,
                 pubkey := signer_key }] }
      | .UnregisterMember =>
        .ok { st with members := st.members.dropLast }
    | none => .error .ProposalNotFound

/-- `approve_proposal` from `instructions/multisig.rs`.  Faithful to the
source: the proposal found by `uuid` is checked to be `Pending`, quorum is
decided from the member records against all collected signature records,
and on success a `RegisterMember` proposal appends a member record
carrying the **approving caller's** key while `UnregisterMember` merely
decrements the member counter; the proposal's own `status` is never
written. -/
def approve_proposal (signer_key : Pubkey) (st : MultisigState) (uuid : String) :
    Except MultisigErrorCode MultisigState :=
  if st.proposals.length > 0 then
    match st.proposals.find? (fun m => m.uuid = uuid) with
    | none => .error .ProposalNotFound
    | some proposal =>
      if ¬ proposal.status = .Pending then .error .AlreadySigned
      else approve_proposal_apply signer_key st uuid (some proposal)
  else approve_proposal_apply signer_key st uuid none

end Registry

/-! ## Helper lemmas -/

/-- The gated membership check `len > 0 → contains` passes exactly when
the list is empty or the key is in it. -/
lemma gated_check_passes {l : List Pubkey} {k : Pubkey}
    (h : l = [] ∨ k ∈ l) : ¬(l.length > 0 ∧ k ∉ l) := by
  rcases h with h | h
  · simp [h]
  · exact fun hc => hc.2 h

lemma gated_check_iff (l : List Pubkey) (k : Pubkey) :
    (l.length > 0 ∧ k ∉ l) ↔ ¬(l = [] ∨ k ∈ l) := by
  have h : l.length > 0 ↔ l ≠ [] := by cases l <;> simp
  rw [h]
  tauto

/-! ## Claim theorems -/

/-- The record produced by the first `create_proposal` call after
`initialize`. -/
def c6_first : CreateProposalResult :=
  { proposal_identifier := 1,
    proposal :=
      { id := 0,
        data := { name := "p", threshold := 0, signers := [] },
        required_signers := [], signers := [], status := .Pending } }

/-- Claim C6 (counterexample): the claim says the first membership
proposal created after initialization receives id 1.  It receives id 0:
`initialize` sets the proposal identifier to 0 and `create_proposal`
assigns the identifier **before** incrementing it. -/
theorem first_membership_proposal_id_zero :
    (create_proposal initializeMultisig.proposal_identifier
        initializeMultisig.multisig "p" 0 []).map (·.proposal.id) = .ok 0 ∧
    ¬ (create_proposal initializeMultisig.proposal_identifier
        initializeMultisig.multisig "p" 0 []).map (·.proposal.id) = .ok 1 := by
  constructor
  · rfl
  · intro h
    rw [show (create_proposal initializeMultisig.proposal_identifier
        initializeMultisig.multisig "p" 0 []).map (·.proposal.id)
        = Except.ok 0 from rfl] at h
    simp at h

/-- Claim C6 (amended): each successful creation takes the next value of
its domain's identifier and increments it by one, so successively created
records receive strictly increasing, never-reused ids; membership
proposals count up from 0 (the proposal takes the identifier's value
before the increment, and `initialize` starts it at 0, so the first
membership proposal has id 0), while transfer proposals and ledger
entries count up from 1 (the identifier is incremented first). -/
theorem identifier_allocation_spec :
    initializeMultisig.proposal_identifier = 0 ∧
    (∀ pid m name t s r, create_proposal pid m name t s = .ok r →
      r.proposal.id = pid ∧ r.proposal_identifier = pid + 1) ∧
    (∀ tid m rc a,
      (create_transfer_proposal tid m rc a).transfer_proposal.id = tid + 1 ∧
      (create_transfer_proposal tid m rc a).transfer_proposal_identifier
        = tid + 1) ∧
    (∀ fee k st a st', teleport fee k st a = .ok st' →
      st'.ledger_identifier = st.ledger_identifier + 1 ∧
      st'.ledgers.map VaultLedger.id =
        st.ledgers.map VaultLedger.id ++ [st.ledger_identifier + 1]) := by
  refine ⟨rfl, ?_, ?_, ?_⟩
  · intro pid m name t s r h
    unfold create_proposal at h
    split at h
    · cases h
    · split at h
      · cases h
      · cases h
        exact ⟨rfl, rfl⟩
  · intro tid m rc a
    exact ⟨rfl, rfl⟩
  · intro fee k st a st' h
    unfold teleport at h
    split at h
    · cases h
    · cases h
      exact ⟨rfl, by simp⟩

/-- Witness for `identifier_allocation_spec` at the state produced by
`initialize`. -/
theorem identifier_allocation_spec_witness :
    create_proposal 0 initializeMultisig.multisig "p" 0 [] = .ok c6_first ∧
    (c6_first.proposal.id = 0 ∧ c6_first.proposal_identifier = 0 + 1) :=
  ⟨rfl, identifier_allocation_spec.2.1 0 initializeMultisig.multisig
    "p" 0 [] c6_first rfl⟩

/-- A fully signed pending transfer proposal of 50 lamports against a
100-lamport vault, used to exercise `execute_transfer_proposal`. -/
def c1_state : VaultExecuteState :=
  { current_transfer_proposal :=
      { id := 1, transaction := .Transfer 7 50,
        multisig_required_signers := [3], multisig_signers := [3],
        status := .Pending },
    vault_balance := 100, recipient_balance := 0,
    ledger_identifier := 0, ledgers := [] }

/-- Claim C1: the claim states that a successful `execute_transfer_proposal`
sets the proposal's status to `Approved` and that every subsequent execute
fails with a state error.  The source never writes the status field in
`execute_transfer_proposal`: here a successful execution of a fully signed
50-lamport transfer leaves the status `Pending`, and executing the very
same proposal a second time succeeds again, debiting the vault from 100
to 50 and then to 0. -/
theorem execute_transfer_proposal_never_sets_approved :
    ((execute_transfer_proposal 3 0 c1_state).bind (fun st1 =>
      (execute_transfer_proposal 3 0 st1).map (fun st2 =>
        (st1.current_transfer_proposal.status, st1.vault_balance, st2.vault_balance))))
      = .ok (.Pending, 50, 0) := rfl

/-- A pending proposal whose single required signer has signed, used for
claim C2. -/
def c2_proposal : MultisigProposalAccount :=
  { id := 0, data := { name := "n", threshold := 0, signers := [] },
    required_signers := [1], signers := [1], status := .Pending }

/-- Claim C2 (counterexample): the claim says approval succeeds for every
caller whenever `required_signers ⊆ collected_signatures`.  Here the
subset holds (`[1] ⊆ [1]`) and the proposal is pending, yet a caller with
key 2 gets `UnauthorizedSigner`, because `approve_proposal` additionally
requires the caller to be among the collected signatures whenever any
exist. -/
theorem approve_proposal_caller_check_counterexample :
    c2_proposal.required_signers = [1] ∧
    c2_proposal.signers = [1] ∧
    c2_proposal.status = .Pending ∧
    approve_proposal 2 c2_proposal initializeMultisig.multisig
      = .error .UnauthorizedSigner :=
  ⟨rfl, rfl, rfl, rfl⟩

/-- Claim C2 (amended): for a pending proposal, `approve_proposal`
succeeds iff the collected-signature list is empty or contains the
caller, **and** every required signer has signed; when the caller check
passes but the quorum does not hold, the error is the quorum error
`InsufficientSignatures`. -/
theorem approve_proposal_ok_iff (signer_key : Pubkey)
    (p : MultisigProposalAccount) (m : MultisigAccount)
    (hp : p.status = .Pending) :
    ((∃ r, approve_proposal signer_key p m = .ok r) ↔
      ((p.signers = [] ∨ signer_key ∈ p.signers) ∧
        ∀ req ∈ p.required_signers, req ∈ p.signers)) ∧
    ((p.signers = [] ∨ signer_key ∈ p.signers) →
      ¬(∀ req ∈ p.required_signers, req ∈ p.signers) →
      approve_proposal signer_key p m = .error .InsufficientSignatures) := by
  unfold approve_proposal
  rw [if_neg (not_not_intro hp)]
  by_cases hc : p.signers = [] ∨ signer_key ∈ p.signers
  · rw [if_neg ((gated_check_iff p.signers signer_key).not.mpr (not_not_intro hc))]
    by_cases hq : ∀ req ∈ p.required_signers, req ∈ p.signers
    · rw [if_neg (not_not_intro hq)]
      refine ⟨⟨fun _ => ⟨hc, hq⟩, fun _ => ⟨_, rfl⟩⟩, fun _ hq' => absurd hq hq'⟩
    · rw [if_pos hq]
      constructor
      · constructor
        · rintro ⟨r, h⟩
          cases h
        · rintro ⟨_, hq'⟩
          exact absurd hq' hq
      · intro _ _
        rfl
  · rw [if_pos ((gated_check_iff p.signers signer_key).mpr hc)]
    constructor
    · constructor
      · rintro ⟨r, h⟩
        cases h
      · rintro ⟨hc', _⟩
        exact absurd hc' hc
    · intro hc' _
      exact absurd hc' hc

/-- A pending proposal with one required signer and no collected
signatures, for the C2 witness. -/
def c2_unsigned : MultisigProposalAccount :=
  { id := 0, data := { name := "n", threshold := 0, signers := [] },
    required_signers := [1], signers := [], status := .Pending }

/-- Witness for `approve_proposal_ok_iff`: at the concrete pending
proposal `c2_unsigned` (caller check passes vacuously, quorum does not
hold) approval fails with the quorum error. -/
theorem approve_proposal_ok_iff_witness :
    approve_proposal 2 c2_unsigned initializeMultisig.multisig
      = .error .InsufficientSignatures :=
  (approve_proposal_ok_iff 2 c2_unsigned initializeMultisig.multisig rfl).2
    (Or.inl rfl) (by decide)

/-- A registry with two members (keys 1 and 2) whose keys have both
signed, used for the Unregister half of claim C3. -/
def c3_ur_state : Registry.MultisigState :=
  { proposals := [],
    signatures := [⟨"s", 1⟩, ⟨"s", 2⟩],
    members := [⟨"x", "A", 1⟩, ⟨"y", "B", 2⟩] }

/-- Claim C3: the claim states that an approved `Register(name, K)`
leaves K in the registry under that name and an approved `Unregister(K)`
removes K.  The source does neither.  First half: on an empty registry a
`RegisterMember` proposal with target key 1 is created and then approved
by the caller with key 2 — the member record written carries the
**approver's** key, so the registry afterwards is `[2]`, not `[1]`.
Second half: with members `[1, 2]` fully signed, an `UnregisterMember`
proposal targeting key 1 is approved by caller 1 — the count decrement
drops the **last** member record, so the registry afterwards is `[1]`:
the target is still present and an unrelated member vanished. -/
theorem approve_proposal_registers_caller_and_drops_last :
    ((Registry.create_proposal 9 Registry.init_counters "u" "Alice"
        .RegisterMember 1).bind (fun st1 =>
      (Registry.approve_proposal 2 st1 "u").map
        (fun st2 => st2.members.map (·.pubkey)))) = .ok [2] ∧
    ((Registry.create_proposal 1 c3_ur_state "v" "rm"
        .UnregisterMember 1).bind (fun st1 =>
      (Registry.approve_proposal 1 st1 "v").map
        (fun st2 => st2.members.map (·.pubkey)))) = .ok [1] :=
  ⟨rfl, rfl⟩

/-- Claim C9 (counterexample): the claim says an `Unregister(K)` proposal
is never created when K is not a member.  With an empty member registry
the membership check in `create_proposal` is skipped entirely, and a
pending `UnregisterMember` proposal targeting the non-member key 5 is
created. -/
theorem unregister_proposal_on_empty_registry :
    Registry.create_proposal 9 Registry.init_counters "a" "x"
        .UnregisterMember 5
      = .ok { proposals := [{ uuid := "a", name := "x",
                              action_type := .UnregisterMember,
                              target_pubkey := 5,
                              status := .Pending }],
              signatures := [], members := [] } := rfl

/-- Claim C9 (amended): `create_proposal` with `UnregisterMember` target K
fails with `NotRegistered` iff the member registry is non-empty and K is
not a member; otherwise — in particular whenever the registry is empty —
it succeeds and appends a pending `UnregisterMember` proposal targeting
K. -/
theorem create_unregister_proposal_spec (signer_key target : Pubkey)
    (st : Registry.MultisigState) (uuid name : String) :
    (Registry.create_proposal signer_key st uuid name .UnregisterMember target
        = .error .NotRegistered ↔
      st.members.length > 0 ∧ ¬ ∃ m ∈ st.members, m.pubkey = target) ∧
    (¬(st.members.length > 0 ∧ ¬ ∃ m ∈ st.members, m.pubkey = target) →
      Registry.create_proposal signer_key st uuid name .UnregisterMember target
        = .ok { st with proposals := st.proposals ++
            [{ uuid := uuid, name := name,
               action_type := .UnregisterMember,
               target_pubkey := target, status := .Pending }] }) := by
  unfold Registry.create_proposal
  by_cases h : st.members.length > 0 ∧ ¬ ∃ m ∈ st.members, m.pubkey = target
  · rw [if_pos ⟨rfl, h.1, h.2⟩]
    constructor
    · exact ⟨fun _ => h, fun _ => rfl⟩
    · intro hn
      exact absurd h hn
  · rw [if_neg (fun hc => h ⟨hc.2.1, hc.2.2⟩)]
    constructor
    · constructor
      · intro he
        cases he
      · intro hc
        exact absurd hc h
    · intro _
      rfl

/-- Witness for `create_unregister_proposal_spec` on the empty registry
with target key 5: the gate condition fails, so the proposal is created. -/
theorem create_unregister_proposal_spec_witness :
    Registry.create_proposal 9 Registry.init_counters "a" "x"
        .UnregisterMember 5
      = .ok { Registry.init_counters with
          proposals := Registry.init_counters.proposals ++
            [{ uuid := "a", name := "x",
               action_type := .UnregisterMember,
               target_pubkey := 5, status := .Pending }] } :=
  (create_unregister_proposal_spec 9 5 Registry.init_counters "a" "x").2
    (by decide)

/-- Claim C4: for a pending transfer proposal of amount A whose required
signers have all signed, executed by an authorized caller (the source
also checks, before the balance, that the caller is a required signer
when any exist): if the vault balance is at least A the call succeeds,
the vault is debited exactly A, the recipient is credited A and a
negative-amount ledger record is appended; if A exceeds the vault
balance the call fails with `InsufficientSolBalance` and returns no
state change. -/
theorem execute_transfer_proposal_balance_spec
    (signer_key vault_key to_ amount : Nat) (st : VaultExecuteState)
    (hpend : st.current_transfer_proposal.status = .Pending)
    (hauth : st.current_transfer_proposal.multisig_required_signers = [] ∨
        signer_key ∈ st.current_transfer_proposal.multisig_required_signers)
    (hq : ∀ req ∈ st.current_transfer_proposal.multisig_required_signers,
        req ∈ st.current_transfer_proposal.multisig_signers)
    (htx : st.current_transfer_proposal.transaction = .Transfer to_ amount) :
    (amount ≤ st.vault_balance →
      execute_transfer_proposal signer_key vault_key st =
        .ok { st with
              vault_balance := st.vault_balance - amount,
              recipient_balance := st.recipient_balance + amount,
              ledger_identifier := st.ledger_identifier + 1,
              ledgers := st.ledgers ++
                [{ id := st.ledger_identifier + 1, user := vault_key,
                   transaction := .Transfer to_ amount,
                   amount := -(amount : Int), miming_fee := 0 }] }) ∧
    (st.vault_balance < amount →
      execute_transfer_proposal signer_key vault_key st =
        .error .InsufficientSolBalance) := by
  unfold execute_transfer_proposal
  rw [if_neg (not_not_intro hpend)]
  rw [if_neg (gated_check_passes hauth)]
  rw [if_neg (not_not_intro hq)]
  rw [htx]
  dsimp only
  constructor
  · intro hle
    rw [if_neg (not_not_intro hle)]
  · intro hlt
    rw [if_pos (not_le.mpr hlt)]

/-- A fully signed pending 50-lamport transfer proposal against a
100-lamport vault, for the C4 witness. -/
def c4_state : VaultExecuteState :=
  { current_transfer_proposal :=
      { id := 2, transaction := .Transfer 7 50,
        multisig_required_signers := [3], multisig_signers := [3],
        status := .Pending },
    vault_balance := 100, recipient_balance := 0,
    ledger_identifier := 4, ledgers := [] }

/-- Witness for `execute_transfer_proposal_balance_spec` at `c4_state`,
caller 3, vault key 0: the sufficient-balance branch at amount 50. -/
theorem execute_transfer_proposal_balance_spec_witness :
    execute_transfer_proposal 3 0 c4_state =
      .ok { c4_state with
            vault_balance := c4_state.vault_balance - 50,
            recipient_balance := c4_state.recipient_balance + 50,
            ledger_identifier := c4_state.ledger_identifier + 1,
            ledgers := c4_state.ledgers ++
              [{ id := c4_state.ledger_identifier + 1, user := 0,
                 transaction := .Transfer 7 50,
                 amount := -(50 : Int), miming_fee := 0 }] } :=
  (execute_transfer_proposal_balance_spec 3 0 7 50 c4_state rfl
    (Or.inr (by decide)) (by decide) rfl).1 (by decide)

/-- Claim C5: `teleport` (the deposit operation) inspects no proposal,
signature or quorum state at all — it succeeds exactly when the caller's
balance covers the amount plus the fee — and on success it increases the
vault balance (by amount + fee) and appends a ledger record whose signed
`amount` field is exactly +A. -/
theorem teleport_ungated_deposit_spec (MIMING_FEE : Nat) (signer_key : Pubkey)
    (st : TeleportState) (amount : Nat) :
    ((∃ st', teleport MIMING_FEE signer_key st amount = .ok st') ↔
      amount + MIMING_FEE ≤ st.signer_balance) ∧
    (∀ st', teleport MIMING_FEE signer_key st amount = .ok st' →
      st'.vault_balance = st.vault_balance + (amount + MIMING_FEE) ∧
      st.vault_balance ≤ st'.vault_balance ∧
      st'.ledgers.map VaultLedger.amount =
        st.ledgers.map VaultLedger.amount ++ [(amount : Int)]) := by
  unfold teleport
  by_cases h : st.signer_balance ≥ amount + MIMING_FEE
  · rw [if_neg (not_not_intro h)]
    constructor
    · exact ⟨fun _ => h, fun _ => ⟨_, rfl⟩⟩
    · intro st' hst
      cases hst
      exact ⟨rfl, Nat.le_add_right _ _, by simp⟩
  · rw [if_pos h]
    constructor
    · constructor
      · rintro ⟨st', hst⟩
        cases hst
      · intro hc
        exact absurd hc h
    · intro st' hst
      cases hst

/-- The state produced by the C5 witness deposit. -/
def c5_result : TeleportState :=
  ⟨5, 5, 1, [⟨1, 1, .Teleport 1 3, 3, 2⟩]⟩

/-- Witness for `teleport_ungated_deposit_spec` with fee 2, a caller
with 10 lamports depositing 3 into an empty vault. -/
theorem teleport_ungated_deposit_spec_witness :
    teleport 2 1 ⟨10, 0, 0, []⟩ 3 = .ok c5_result ∧
    (c5_result.vault_balance = 0 + (3 + 2) ∧
     0 ≤ c5_result.vault_balance ∧
     c5_result.ledgers.map VaultLedger.amount = [] ++ [(3 : Int)]) :=
  ⟨rfl, (teleport_ungated_deposit_spec 2 1 ⟨10, 0, 0, []⟩ 3).2 c5_result rfl⟩

/-- Claim C10: `teleport` with amount A debits the caller A plus the fee:
it succeeds exactly when the caller's balance is at least A + MIMING_FEE,
debits the caller and credits the vault A + MIMING_FEE, and the appended
ledger record carries the fee in its `miming_fee` field while its signed
`amount` field records only +A. -/
theorem teleport_fee_spec (MIMING_FEE : Nat) (signer_key : Pubkey)
    (st : TeleportState) (amount : Nat) :
    ((∃ st', teleport MIMING_FEE signer_key st amount = .ok st') ↔
      amount + MIMING_FEE ≤ st.signer_balance) ∧
    (∀ st', teleport MIMING_FEE signer_key st amount = .ok st' →
      st'.signer_balance = st.signer_balance - (amount + MIMING_FEE) ∧
      st'.vault_balance = st.vault_balance + (amount + MIMING_FEE) ∧
      st'.ledgers = st.ledgers ++
        [{ id := st.ledger_identifier + 1, user := signer_key,
           transaction := .Teleport signer_key amount,
           amount := (amount : Int), miming_fee := MIMING_FEE }]) := by
  unfold teleport
  by_cases h : st.signer_balance ≥ amount + MIMING_FEE
  · rw [if_neg (not_not_intro h)]
    constructor
    · exact ⟨fun _ => h, fun _ => ⟨_, rfl⟩⟩
    · intro st' hst
      cases hst
      exact ⟨rfl, rfl, rfl⟩
  · rw [if_pos h]
    constructor
    · constructor
      · rintro ⟨st', hst⟩
        cases hst
      · intro hc
        exact absurd hc h
    · intro st' hst
      cases hst

/-- The state produced by the C10 witness deposit. -/
def c10_result : TeleportState :=
  ⟨5, 10, 8, [⟨8, 9, .Teleport 9 3, 3, 2⟩]⟩

/-- Witness for `teleport_fee_spec` with fee 2, a caller with 10 lamports
depositing 3 into a vault holding 5. -/
theorem teleport_fee_spec_witness :
    teleport 2 9 ⟨10, 5, 7, []⟩ 3 = .ok c10_result ∧
    (c10_result.signer_balance = 10 - (3 + 2) ∧
     c10_result.vault_balance = 5 + (3 + 2) ∧
     c10_result.ledgers = [] ++
       [{ id := 7 + 1, user := 9, transaction := .Teleport 9 3,
          amount := (3 : Int), miming_fee := 2 }]) :=
  ⟨rfl, (teleport_fee_spec 2 9 ⟨10, 5, 7, []⟩ 3).2 c10_result rfl⟩

/-- Claim C7: a signer appears in a proposal's collected-signature list
at most once.  A second sign by a signer already in the list of a pending
proposal fails with `DuplicateSignature` (the conflict error), a
successful sign preserves distinctness of the signature list, proposals
are created with an empty signature list, and approval / execution leave
the signature list untouched — for both the membership and the
vault-transfer pipeline. -/
theorem duplicate_signature_spec :
    (∀ k (p : MultisigProposalAccount), p.status = .Pending →
      (p.required_signers = [] ∨ k ∈ p.required_signers) →
      k ∈ p.signers →
      sign_proposal k p = .error .DuplicateSignature) ∧
    (∀ k p p', p.signers.Nodup → sign_proposal k p = .ok p' →
      p'.signers.Nodup) ∧
    (∀ k p m r, approve_proposal k p m = .ok r →
      r.proposal.signers = p.signers) ∧
    (∀ pid m name t s r, create_proposal pid m name t s = .ok r →
      r.proposal.signers = []) ∧
    (∀ k (q : VaultTransferProposalAccount), q.status = .Pending →
      (q.multisig_required_signers = [] ∨ k ∈ q.multisig_required_signers) →
      k ∈ q.multisig_signers →
      sign_transfer_proposal k q = .error .DuplicateSignature) ∧
    (∀ k q q', q.multisig_signers.Nodup → sign_transfer_proposal k q = .ok q' →
      q'.multisig_signers.Nodup) ∧
    (∀ k vk st st', execute_transfer_proposal k vk st = .ok st' →
      st'.current_transfer_proposal.multisig_signers =
        st.current_transfer_proposal.multisig_signers) ∧
    (∀ tid m rc a,
      (create_transfer_proposal tid m rc a).transfer_proposal.multisig_signers
        = []) := by
  refine ⟨?_, ?_, ?_, ?_, ?_, ?_, ?_, ?_⟩
  · intro k p hpend hauth hmem
    unfold sign_proposal
    rw [if_neg (not_not_intro hpend)]
    rw [if_neg (gated_check_passes hauth)]
    rw [if_pos ⟨List.length_pos_of_mem hmem, hmem⟩]
  · intro k p p' hnd h
    unfold sign_proposal at h
    split at h
    · cases h
    · split at h
      · cases h
      · split at h
        · cases h
        · rename_i hcond
          cases h
          have hk : k ∉ p.signers :=
            fun hm => hcond ⟨List.length_pos_of_mem hm, hm⟩
          simp [List.nodup_append, hnd, hk]
  · intro k p m r h
    unfold approve_proposal at h
    split at h
    · cases h
    · split at h
      · cases h
      · split at h
        · cases h
        · cases h
          rfl
  · intro pid m name t s r h
    unfold create_proposal at h
    split at h
    · cases h
    · split at h
      · cases h
      · cases h
        rfl
  · intro k q hpend hauth hmem
    unfold sign_transfer_proposal
    rw [if_neg (not_not_intro hpend)]
    rw [if_neg (gated_check_passes hauth)]
    rw [if_pos ⟨List.length_pos_of_mem hmem, hmem⟩]
  · intro k q q' hnd h
    unfold sign_transfer_proposal at h
    split at h
    · cases h
    · split at h
      · cases h
      · split at h
        · cases h
        · rename_i hcond
          cases h
          have hk : k ∉ q.multisig_signers :=
            fun hm => hcond ⟨List.length_pos_of_mem hm, hm⟩
          simp [List.nodup_append, hnd, hk]
  · intro k vk st st' h
    unfold execute_transfer_proposal at h
    split at h
    · cases h
    · split at h
      · cases h
      · split at h
        · cases h
        · split at h
          · split at h
            · cases h
            · cases h
              rfl
          · cases h
            rfl
  · intro tid m rc a
    rfl

/-- A pending proposal already signed by its single required signer, for
the C7 witness. -/
def c7_proposal : MultisigProposalAccount :=
  { id := 3, data := { name := "n", threshold := 0, signers := [] },
    required_signers := [1], signers := [1], status := .Pending }

/-- Witness for `duplicate_signature_spec`: signer 1, who has already
signed `c7_proposal`, signs again and gets `DuplicateSignature`. -/
theorem duplicate_signature_spec_witness :
    sign_proposal 1 c7_proposal = .error .DuplicateSignature :=
  duplicate_signature_spec.1 1 c7_proposal rfl (Or.inr (by decide)) (by decide)

/-- Claim C8: `required_signers` is written exactly once at proposal
creation, as the map of the registry's identity keys at that moment, and
no later operation modifies it: signing and approving a membership
proposal and signing and executing a transfer proposal all leave the
snapshot (for execution, the whole proposal record) unchanged; registry
mutations rewrite only the multisig account, which no existing proposal
record shares. -/
theorem required_signers_snapshot_spec :
    (∀ pid m name t s r, create_proposal pid m name t s = .ok r →
      r.proposal.required_signers = m.signers.map MultisigSigners.pubkey) ∧
    (∀ k p p', sign_proposal k p = .ok p' →
      p'.required_signers = p.required_signers) ∧
    (∀ k p m r, approve_proposal k p m = .ok r →
      r.proposal.required_signers = p.required_signers) ∧
    (∀ tid m rc a,
      (create_transfer_proposal tid m rc a).transfer_proposal.multisig_required_signers
        = m.signers.map MultisigSigners.pubkey) ∧
    (∀ k q q', sign_transfer_proposal k q = .ok q' →
      q'.multisig_required_signers = q.multisig_required_signers) ∧
    (∀ k vk st st', execute_transfer_proposal k vk st = .ok st' →
      st'.current_transfer_proposal = st.current_transfer_proposal) := by
  refine ⟨?_, ?_, ?_, ?_, ?_, ?_⟩
  · intro pid m name t s r h
    unfold create_proposal at h
    split at h
    · cases h
    · split at h
      · cases h
      · cases h
        rfl
  · intro k p p' h
    unfold sign_proposal at h
    split at h
    · cases h
    · split at h
      · cases h
      · split at h
        · cases h
        · cases h
          rfl
  · intro k p m r h
    unfold approve_proposal at h
    split at h
    · cases h
    · split at h
      · cases h
      · split at h
        · cases h
        · cases h
          rfl
  · intro tid m rc a
    rfl
  · intro k q q' h
    unfold sign_transfer_proposal at h
    split at h
    · cases h
    · split at h
      · cases h
      · split at h
        · cases h
        · cases h
          rfl
  · intro k vk st st' h
    unfold execute_transfer_proposal at h
    split at h
    · cases h
    · split at h
      · cases h
      · split at h
        · cases h
        · split at h
          · split at h
            · cases h
            · cases h
              rfl
          · cases h
            rfl

/-- A multisig configuration with one registered signer, for the C8
witness. -/
def c8_multisig : MultisigAccount :=
  { name := "m", threshold := 1,
    signers := [{ name := "A", pubkey := 5 }] }

/-- The record produced by creating a proposal against `c8_multisig`
with identifier 4. -/
def c8_created : CreateProposalResult :=
  { proposal_identifier := 5,
    proposal :=
      { id := 4,
        data := { name := "q", threshold := 1, signers := [] },
        required_signers := [5], signers := [], status := .Pending } }

/-- Witness for `required_signers_snapshot_spec`: creating a proposal
against `c8_multisig` snapshots exactly its signer key list `[5]`. -/
theorem required_signers_snapshot_spec_witness :
    create_proposal 4 c8_multisig "q" 1 [] = .ok c8_created ∧
    c8_created.proposal.required_signers
      = c8_multisig.signers.map MultisigSigners.pubkey :=
  ⟨rfl, required_signers_snapshot_spec.1 4 c8_multisig "q" 1 [] c8_created rfl⟩

end MimingSpoke
